import Mathlib

/-!
Shallow embedding of the Drive MCP server (`drive_web_mcp_server.py`) and the
Gemini MCP client's orchestration loop (`mcp_client.py`).

Python dictionaries are modelled as functions `String → Option _`; external
network effects (OAuth token exchange, userinfo lookup, token refresh, Drive
file listing) are modelled as oracle parameters, so every server operation is
a pure function of the current state and the oracle.
-/

/-- Python truthiness of an optional string: `None` and `""` are falsy.
Used for `if not client_id`, `if not user_id`, `if creds.refresh_token`,
`if part.text`. -/
def pyTruthy : Option String → Bool
  | none => false
  | some s => !(s == "")

/-- The credential material stored in `credentials_store[client_id]`:
exactly the six fields written by `oauth2callback` (lines 105-112).  Note
that no expiry information is stored. -/
structure CredsData where
  token : String
  refresh_token : Option String
  token_uri : String
  client_id : String
  client_secret : String
  scopes : List String
deriving DecidableEq, Repr

/-- The `google.oauth2.credentials.Credentials` object reconstructed by
`get_drive_service` (lines 134-141).  `expired` abstracts the library's
`creds.expired` property, an input from the environment (the stored dict
carries no expiry, so the property is decided by the library at run time). -/
structure Credentials where
  token : String
  refresh_token : Option String
  token_uri : String
  client_id : String
  client_secret : String
  scopes : List String
  expired : Bool
deriving DecidableEq, Repr

/-- In-memory server state: `credentials_store : {client_id: {credentials}}`
and `oauth_states : {state: client_id}` (lines 33-35). -/
structure ServerState where
  credentials_store : String → Option CredsData
  oauth_states : String → Option String

/-- Oracle for the external calls performed by `oauth2callback`:
`flow.fetch_token(code)` followed by reading `flow.credentials` (modelled as
one function from the code to the six stored fields, or an exception
message), and `service.userinfo().get().execute()` followed by
`.get("email")` (an exception message, or an optional email string). -/
structure Upstream where
  fetchToken : String → Except String CredsData
  userinfoEmail : Except String (Option String)

/-- Result of an HTTP endpoint: a 200 text body or an `HTTPException`. -/
inductive CallbackResult where
  | ok (body : String)
  | httpError (status : Nat) (detail : String)
deriving DecidableEq, Repr

/-- `GET /oauth2callback` (lines 79-119).  The whole body runs inside
`try: ... except Exception as e: raise HTTPException(500, f"Authentication
error: {str(e)}")`.  FastAPI's `HTTPException` is an `Exception` subclass, so
the `HTTPException(400, ...)` raises inside the `try` are caught by that
handler and re-raised with status 500; the wrapped detail uses Starlette's
`HTTPException.__str__`, i.e. `"{status_code}: {detail}"`.  The flow token is
popped from `oauth_states` before the token exchange is attempted. -/
def oauth2callback (up : Upstream) (st : ServerState) (code state : String) :
    CallbackResult × ServerState :=
  match st.oauth_states state with
  | none =>
      (.httpError 500 "Authentication error: 400: Invalid state parameter", st)
  | some client_id =>
      let st1 : ServerState :=
        { st with oauth_states := fun k => if k = state then none else st.oauth_states k }
      match up.fetchToken code with
      | .error e => (.httpError 500 ("Authentication error: " ++ e), st1)
      | .ok creds =>
          match up.userinfoEmail with
          | .error e => (.httpError 500 ("Authentication error: " ++ e), st1)
          | .ok email =>
              if pyTruthy email then
                (.ok ("Authentication successful for user: " ++ email.getD ""
                      ++ ", You can close this window now."),
                 { st1 with credentials_store :=
                     fun k => if k = client_id then some creds else st1.credentials_store k })
              else
                (.httpError 500 "Authentication error: 400: Could not retrieve user email", st1)

/-- Outcome of `creds.refresh(Request())`: either a new access token together
with the credential object's resulting refresh token, or an exception
message. -/
inductive RefreshOutcome where
  | ok (newToken : String) (newRefreshToken : Option String)
  | fail (msg : String)
deriving DecidableEq, Repr

/-- A file entry returned by `service.files().list(...).execute()`:
`id`, `name`, `mimeType` are requested fields; `webViewLink` may be absent
(the formatter tests `"webViewLink" in item`). -/
structure DriveFile where
  id : String
  name : String
  mimeType : String
  webViewLink : Option String
deriving DecidableEq, Repr

/-- Environment for the resource-side operations: what `creds.expired`
evaluates to for the reconstructed credential, the outcome of a token
refresh, and the outcome of the Drive `files().list` call for a query. -/
structure Env where
  expired : Bool
  refresh : RefreshOutcome
  listFiles : String → Except String (List DriveFile)

/-- Result of `get_drive_service`: a raised exception's message (`ValueError`
or the refresh failure, both propagate to the caller) or the service handle
built from the final credential object. -/
inductive GDSResult where
  | error (msg : String)
  | service (creds : Credentials)
deriving DecidableEq, Repr

/-- Output of `get_drive_service`: the result, the credential store after the
call, and the number of network refresh calls performed. -/
structure GDSOut where
  res : GDSResult
  store : String → Option CredsData
  netCalls : Nat

/-- `get_drive_service(client_id)` (lines 122-151).  Raises `ValueError` for
a falsy `client_id` or a missing store entry; reconstructs a `Credentials`
object from the stored fields; when the credential is expired and holds a
truthy refresh token, performs one network refresh and writes only the new
access token back into the store (`creds_data["token"] = creds.token`);
otherwise touches nothing. -/
def get_drive_service (env : Env) (store : String → Option CredsData)
    (client_id : String) : GDSOut :=
  if !(pyTruthy (some client_id)) then
    { res := .error "No client_id provided", store := store, netCalls := 0 }
  else
    match store client_id with
    | none =>
        { res := .error ("No credentials found for client_id: " ++ client_id),
          store := store, netCalls := 0 }
    | some cd =>
        let creds : Credentials :=
          { token := cd.token, refresh_token := cd.refresh_token,
            token_uri := cd.token_uri, client_id := cd.client_id,
            client_secret := cd.client_secret, scopes := cd.scopes,
            expired := env.expired }
        if creds.expired && pyTruthy creds.refresh_token then
          match env.refresh with
          | .fail msg =>
              { res := .error msg, store := store, netCalls := 1 }
          | .ok newToken newRefreshToken =>
              let creds2 : Credentials :=
                { creds with
                  token := newToken, refresh_token := newRefreshToken,
                  expired := false }
              { res := .service creds2,
                store := fun k =>
                  if k = client_id then some { cd with token := newToken } else store k,
                netCalls := 1 }
        else
          { res := .service creds, store := store, netCalls := 0 }

/-- Render one file entry of the `search_drive_files` listing
(lines 194-198). -/
def formatFile (f : DriveFile) : String :=
  "- " ++ f.name ++ " (" ++ f.mimeType ++ ")"
    ++ (match f.webViewLink with
        | some l => "\n  Link: " ++ l
        | none => "")

/-- The `search_drive_files` tool (lines 154-203).  `header` is the value of
the `X-Client-ID` request header (`none` when absent).  The whole body runs
inside `try: ... except Exception as e: return f"Error searching files:
{str(e)}"`, so every raised exception becomes a returned string. -/
def search_drive_files (env : Env) (store : String → Option CredsData)
    (header : Option String) (query : String) : String × (String → Option CredsData) :=
  if !(pyTruthy header) then
    ("No client_id provided for authentication.", store)
  else
    let out := get_drive_service env store (header.getD "")
    match out.res with
    | .error msg => ("Error searching files: " ++ msg, out.store)
    | .service _ =>
        match env.listFiles query with
        | .error e => ("Error searching files: " ++ e, out.store)
        | .ok items =>
            if items.isEmpty then
              ("No files found matching your query.", out.store)
            else
              (String.intercalate "\n"
                ("Files found:" :: items.map formatFile), out.store)

/-- The `check_authentication_status` tool (lines 206-224): presence of the
client identifier in `credentials_store` is the sole criterion. -/
def check_authentication_status (store : String → Option CredsData)
    (header : Option String) : String :=
  if !(pyTruthy header) then
    "No X-Client-ID header provided for authentication check."
  else if (store (header.getD "")).isSome then
    "authenticated"
  else
    "not authenticated"

/-- The two tools the server registers with `@mcp.tool()`. -/
inductive ToolName where
  | search_drive_files
  | check_authentication_status
deriving DecidableEq, Repr

/-- What a tool invocation yields over the protocol session: a textual
content block, or a protocol-level fault (an exception escaping the
handler). -/
inductive ToolOutcome where
  | text (s : String)
  | protocolFault (msg : String)
deriving DecidableEq, Repr

/-- `true` iff the outcome is a textual content block. -/
def ToolOutcome.isText : ToolOutcome → Bool
  | .text _ => true
  | .protocolFault _ => false

/-- Dispatch of a tool call: each handler reads the `X-Client-ID` header from
the current HTTP request (`get_http_request()`); both handlers return plain
strings on every path reachable with a missing header. -/
def invokeTool (t : ToolName) (env : Env) (store : String → Option CredsData)
    (header : Option String) (query : String) : ToolOutcome :=
  match t with
  | .search_drive_files => .text (search_drive_files env store header query).1
  | .check_authentication_status => .text (check_authentication_status store header)

/-- A Gemini function call part: `part.function_call.name` and
`part.function_call.args`. -/
structure FunctionCall where
  name : String
  args : List (String × String)
deriving DecidableEq, Repr

/-- A part of a model response content.  The loop tests
`if hasattr(part, "text") and part.text:` (truthy text) and
`elif hasattr(part, "function_call") and part.function_call:` (a present
function-call object). -/
structure GPart where
  text : Option String
  function_call : Option FunctionCall
deriving DecidableEq, Repr

/-- `candidate.content`: role and parts. -/
structure GContent where
  role : String
  parts : List GPart
deriving DecidableEq, Repr

/-- One entry of `response.candidates`. -/
structure GCandidate where
  content : GContent
deriving DecidableEq, Repr

/-- A model response; the loop only ever inspects `response.candidates[0]`. -/
structure GResponse where
  candidates : List GCandidate
deriving DecidableEq, Repr

/-- One pass of the `for part in content.parts` loop (lines 311-347 of
`mcp_client.py`): collect the truthy text parts encountered before the first
function-call part, together with that first call if any.  A part whose text
is truthy is accumulated and iteration continues (its `function_call`, if
any, is shadowed by the `elif`); a part with a function call (and no truthy
text) triggers the call and `break`s, so later parts are never visited. -/
def scanParts : List GPart → List String × Option FunctionCall
  | [] => ([], none)
  | p :: rest =>
    if pyTruthy p.text then
      let (ts, c) := scanParts rest
      (p.text.getD "" :: ts, c)
    else
      match p.function_call with
      | some c => ([], some c)
      | none => scanParts rest

/-- The parts of the first candidate, or `[]` when there is no candidate. -/
def firstParts (r : GResponse) : List GPart :=
  match r.candidates with
  | [] => []
  | cand :: _ => cand.content.parts

/-- The `while response.candidates and response.candidates[0].content.parts:`
condition (Python truthiness of both lists). -/
def loopCondition (r : GResponse) : Bool :=
  !r.candidates.isEmpty && !(firstParts r).isEmpty

/-- `GeminiMCPClient.query` (lines 289-358), with the model and the tool
bridge as oracles: `script` is the stream of responses the model returns
(head = the response to the initial request; each successful tool call
consumes the next entry), and `toolResults` the stream of tool-call outcomes
(`Except.error e` models `session.call_tool` raising; the successful result
content only feeds the next model request, which the script already
reflects).  Returns `none` when the run needs more oracle entries than
provided (the unbounded Python loop keeps going); otherwise `some` of the
returned string. -/
def queryRun : List GResponse → List (Except String Unit) → List String → Option String
  | [], _, _ => none
  | r :: rest, toolResults, final_text_parts =>
    if loopCondition r then
      let (ts, call) := scanParts (firstParts r)
      match call with
      | none =>
          -- has_tool_call is false: break, then join the accumulated parts
          some (String.intercalate "\n" (final_text_parts ++ ts))
      | some c =>
          match toolResults with
          | [] => none
          | tr :: trs =>
              match tr with
              | .error e => some ("Error executing tool " ++ c.name ++ ": " ++ e)
              | .ok _ => queryRun rest trs (final_text_parts ++ ts)
    else
      some (String.intercalate "\n" final_text_parts)

/-- The text fragments a response contributes to `final_text_parts`: its
truthy text parts up to (not past) the first function-call part. -/
def accTexts (r : GResponse) : List String :=
  (scanParts (firstParts r)).1

/-- `GeminiMCPClient.query` on a fresh history: `final_text_parts = []`. -/
def GeminiMCPClient.query (script : List GResponse)
    (toolResults : List (Except String Unit)) : Option String :=
  queryRun script toolResults []

/-- `true` iff the callback produced a 200 success body. -/
def CallbackResult.isOk : CallbackResult → Bool
  | .ok _ => true
  | .httpError _ _ => false

/-- A callback whose `state` is absent from `oauth_states` takes the
invalid-state branch; the enclosing `except Exception` turns the
`HTTPException(400)` into a 500. -/
theorem oauth2callback_unknown_state (up : Upstream) (st : ServerState)
    (code s : String) (h : st.oauth_states s = none) :
    (oauth2callback up st code s).1
      = CallbackResult.httpError 500 "Authentication error: 400: Invalid state parameter" := by
  unfold oauth2callback
  rw [h]

/-- Whatever the upstream does after the lookup succeeds, the flow token is
popped from `oauth_states` before any of it runs, so the result state never
contains it. -/
theorem oauth2callback_removes_state (up : Upstream) (st : ServerState)
    (code s cid : String) (hs : st.oauth_states s = some cid) :
    ((oauth2callback up st code s).2).oauth_states s = none := by
  unfold oauth2callback
  rw [hs]
  rcases up.fetchToken code with e | creds
  · simp
  · rcases up.userinfoEmail with e | email
    · simp
    · by_cases h : pyTruthy email = true
      · simp [h]
      · simp [h]

/-- When the callback does not succeed, `credentials_store` is untouched. -/
theorem oauth2callback_fail_store_unchanged (up : Upstream) (st : ServerState)
    (code s cid : String) (hs : st.oauth_states s = some cid)
    (hfail : ((oauth2callback up st code s).1).isOk = false) :
    ((oauth2callback up st code s).2).credentials_store = st.credentials_store := by
  rcases hft : up.fetchToken code with e | creds
  · simp [oauth2callback, hs, hft]
  · rcases hue : up.userinfoEmail with e | email
    · simp [oauth2callback, hs, hft, hue]
    · by_cases h : pyTruthy email = true
      · exfalso
        simp [oauth2callback, hs, hft, hue, h, CallbackResult.isOk] at hfail
      · simp [oauth2callback, hs, hft, hue, h]

/-- C10: in `oauth2callback` the flow token is popped from `oauth_states`
before the code-for-token exchange is attempted, so when the exchange or the
identity lookup fails the token stays consumed: the state entry is gone, no
credential record is written, and replaying the same `state` afterwards is
rejected through the invalid-state branch. -/
theorem C10_state_popped_before_exchange (up : Upstream) (st : ServerState)
    (code s cid : String) (hs : st.oauth_states s = some cid)
    (hfail : ((oauth2callback up st code s).1).isOk = false) :
    ((oauth2callback up st code s).2).oauth_states s = none
  ∧ ((oauth2callback up st code s).2).credentials_store = st.credentials_store
  ∧ ∀ (up2 : Upstream) (code2 : String),
      (oauth2callback up2 (oauth2callback up st code s).2 code2 s).1
        = CallbackResult.httpError 500 "Authentication error: 400: Invalid state parameter" :=
  ⟨oauth2callback_removes_state up st code s cid hs,
   oauth2callback_fail_store_unchanged up st code s cid hs hfail,
   fun up2 code2 => oauth2callback_unknown_state up2 _ code2 s
     (oauth2callback_removes_state up st code s cid hs)⟩

/-- Concrete credential material used by the concrete scenarios below. -/
def cd0 : CredsData :=
  { token := "tok0", refresh_token := some "rtok0",
    token_uri := "https://oauth2.googleapis.com/token", client_id := "appid",
    client_secret := "appsecret",
    scopes := ["https://www.googleapis.com/auth/drive.metadata.readonly"] }

/-- An upstream on which token exchange and identity lookup succeed. -/
def upOk : Upstream :=
  { fetchToken := fun _ => .ok cd0, userinfoEmail := .ok (some "user@example.com") }

/-- An upstream on which the code-for-token exchange raises. -/
def upFetchFail : Upstream :=
  { fetchToken := fun _ => .error "invalid_grant", userinfoEmail := .ok (some "user@example.com") }

/-- A server state with one pending authorization flow and no credentials. -/
def st0 : ServerState :=
  { credentials_store := fun _ => none,
    oauth_states := fun k => if k = "state-1" then some "clientA" else none }

/-- Witness for C10 at a concrete input: the exchange fails, the flow token
stays consumed, no record is written, and the replay is rejected. -/
theorem C10_state_popped_before_exchange_witness :
    ((oauth2callback upFetchFail st0 "authcode" "state-1").2).oauth_states "state-1" = none
  ∧ ((oauth2callback upFetchFail st0 "authcode" "state-1").2).credentials_store
      = st0.credentials_store
  ∧ (oauth2callback upOk (oauth2callback upFetchFail st0 "authcode" "state-1").2
        "authcode" "state-1").1
      = CallbackResult.httpError 500 "Authentication error: 400: Invalid state parameter" :=
  ⟨(C10_state_popped_before_exchange upFetchFail st0 "authcode" "state-1" "clientA"
      (by decide) (by decide)).1,
   (C10_state_popped_before_exchange upFetchFail st0 "authcode" "state-1" "clientA"
      (by decide) (by decide)).2.1,
   (C10_state_popped_before_exchange upFetchFail st0 "authcode" "state-1" "clientA"
      (by decide) (by decide)).2.2 upOk "authcode"⟩

/-- C1, evaluated at a concrete run: a first callback on a pending flow token
succeeds; replaying the same `state` is rejected identically to a
never-issued token, but the observable response is HTTP 500 (the
`HTTPException(400, "Invalid state parameter")` raised inside the `try` block
is caught by the blanket `except Exception` and re-raised as 500), not the
HTTP 400 the claim states. -/
theorem C1_replayed_state_rejected_with_500 :
    (oauth2callback upOk st0 "authcode" "state-1").1
      = CallbackResult.ok
          "Authentication successful for user: user@example.com, You can close this window now."
  ∧ (oauth2callback upOk (oauth2callback upOk st0 "authcode" "state-1").2
        "authcode" "state-1").1
      = CallbackResult.httpError 500 "Authentication error: 400: Invalid state parameter"
  ∧ (oauth2callback upOk (oauth2callback upOk st0 "authcode" "state-1").2
        "authcode" "state-1").1
      = (oauth2callback upOk st0 "authcode" "never-issued").1 := by
  decide

/-- C3: resolving an expired record that holds a refresh token, when the
refresh succeeds and the upstream does not rotate the refresh token, yields
a credential handle carrying the new access token, and writes exactly the
new access token back into the store entry — the stored refresh token, token
endpoint, client app identifier, client app secret and scopes are all
unchanged (the write-back copies only `creds.token`). -/
theorem C3_refresh_writes_token_preserves_rest (env : Env)
    (store : String → Option CredsData) (cid : String) (cd : CredsData) (t : String)
    (hcid : cid ≠ "") (hstore : store cid = some cd) (hexp : env.expired = true)
    (hrt : pyTruthy cd.refresh_token = true)
    (hok : env.refresh = RefreshOutcome.ok t cd.refresh_token) :
    (get_drive_service env store cid).res
      = GDSResult.service
          { token := t, refresh_token := cd.refresh_token, token_uri := cd.token_uri,
            client_id := cd.client_id, client_secret := cd.client_secret,
            scopes := cd.scopes, expired := false }
  ∧ (get_drive_service env store cid).store cid = some { cd with token := t } := by
  have h1 : pyTruthy (some cid) = true := by simp [pyTruthy, hcid]
  simp [get_drive_service, h1, hstore, hexp, hrt, hok]

/-- An environment in which the reconstructed credential reports expired and
a refresh would succeed without rotating the refresh token. -/
def envExpired : Env :=
  { expired := true, refresh := .ok "newtok" (some "rtok0"),
    listFiles := fun _ => .ok [] }

/-- A credential store holding `cd0` for client `alice` only. -/
def store0 : String → Option CredsData :=
  fun k => if k = "alice" then some cd0 else none

/-- Witness for C3 at a concrete input. -/
theorem C3_refresh_writes_token_preserves_rest_witness :
    (get_drive_service envExpired store0 "alice").res
      = GDSResult.service
          { token := "newtok", refresh_token := cd0.refresh_token,
            token_uri := cd0.token_uri, client_id := cd0.client_id,
            client_secret := cd0.client_secret, scopes := cd0.scopes,
            expired := false }
  ∧ (get_drive_service envExpired store0 "alice").store "alice"
      = some { cd0 with token := "newtok" } :=
  C3_refresh_writes_token_preserves_rest envExpired store0 "alice" cd0 "newtok"
    (by decide) (by decide) rfl (by decide) (by decide)

/-- C4: resolving an expired record that holds no (truthy) refresh token
performs no refresh: zero network calls, the store is untouched, and the
handle that is produced still carries the stale token and reports expired —
no usable credential results and nothing is silently renewed. -/
theorem C4_expired_without_refresh_token_not_renewed (env : Env)
    (store : String → Option CredsData) (cid : String) (cd : CredsData)
    (hcid : cid ≠ "") (hstore : store cid = some cd) (hexp : env.expired = true)
    (hnort : pyTruthy cd.refresh_token = false) :
    (get_drive_service env store cid).res
      = GDSResult.service
          { token := cd.token, refresh_token := cd.refresh_token,
            token_uri := cd.token_uri, client_id := cd.client_id,
            client_secret := cd.client_secret, scopes := cd.scopes,
            expired := true }
  ∧ (get_drive_service env store cid).store = store
  ∧ (get_drive_service env store cid).netCalls = 0 := by
  have h1 : pyTruthy (some cid) = true := by simp [pyTruthy, hcid]
  simp [get_drive_service, h1, hstore, hexp, hnort]

/-- A stored record with no refresh token, held for client `bob`. -/
def cdNoRefresh : CredsData :=
  { token := "tok1", refresh_token := none,
    token_uri := "https://oauth2.googleapis.com/token", client_id := "appid",
    client_secret := "appsecret",
    scopes := ["https://www.googleapis.com/auth/drive.metadata.readonly"] }

/-- A credential store holding `cdNoRefresh` for client `bob` only. -/
def storeNoRefresh : String → Option CredsData :=
  fun k => if k = "bob" then some cdNoRefresh else none

/-- Witness for C4 at a concrete input. -/
theorem C4_expired_without_refresh_token_not_renewed_witness :
    (get_drive_service envExpired storeNoRefresh "bob").res
      = GDSResult.service
          { token := cdNoRefresh.token, refresh_token := cdNoRefresh.refresh_token,
            token_uri := cdNoRefresh.token_uri, client_id := cdNoRefresh.client_id,
            client_secret := cdNoRefresh.client_secret, scopes := cdNoRefresh.scopes,
            expired := true }
  ∧ (get_drive_service envExpired storeNoRefresh "bob").store = storeNoRefresh
  ∧ (get_drive_service envExpired storeNoRefresh "bob").netCalls = 0 :=
  C4_expired_without_refresh_token_not_renewed envExpired storeNoRefresh "bob" cdNoRefresh
    (by decide) (by decide) rfl (by decide)

/-- C5: resolving a client identifier with no stored record raises the
not-authenticated `ValueError` and performs no network call; the store is
untouched. -/
theorem C5_missing_record_fails_without_network (env : Env)
    (store : String → Option CredsData) (cid : String)
    (hcid : cid ≠ "") (hnone : store cid = none) :
    (get_drive_service env store cid).res
      = GDSResult.error ("No credentials found for client_id: " ++ cid)
  ∧ (get_drive_service env store cid).store = store
  ∧ (get_drive_service env store cid).netCalls = 0 := by
  have h1 : pyTruthy (some cid) = true := by simp [pyTruthy, hcid]
  simp [get_drive_service, h1, hnone]

/-- Witness for C5 at a concrete input. -/
theorem C5_missing_record_fails_without_network_witness :
    (get_drive_service envExpired store0 "carol").res
      = GDSResult.error ("No credentials found for client_id: " ++ "carol")
  ∧ (get_drive_service envExpired store0 "carol").store = store0
  ∧ (get_drive_service envExpired store0 "carol").netCalls = 0 :=
  C5_missing_record_fails_without_network envExpired store0 "carol"
    (by decide) (by decide)

/-- `check_authentication_status` reads the store only at the resolved
identifier. -/
theorem check_authentication_status_depends_only_on_entry
    (store1 store2 : String → Option CredsData) (header : Option String)
    (heq : store1 (header.getD "") = store2 (header.getD "")) :
    check_authentication_status store1 header
      = check_authentication_status store2 header := by
  unfold check_authentication_status
  rw [heq]

/-- C6: for a resolved (truthy) client identifier,
`check_authentication_status` answers `"authenticated"` exactly when a
record is present for it, `"not authenticated"` exactly when none is, and
the answer depends only on presence — never on the record contents. -/
theorem C6_status_is_presence_check (store : String → Option CredsData)
    (cid : String) (hcid : cid ≠ "") :
    (check_authentication_status store (some cid) = "authenticated"
        ↔ (store cid).isSome = true)
  ∧ (check_authentication_status store (some cid) = "not authenticated"
        ↔ (store cid).isSome = false)
  ∧ ∀ store2 : String → Option CredsData,
      (store2 cid).isSome = (store cid).isSome →
        check_authentication_status store2 (some cid)
          = check_authentication_status store (some cid) := by
  have h1 : pyTruthy (some cid) = true := by simp [pyTruthy, hcid]
  refine ⟨?_, ?_, ?_⟩
  · cases h : (store cid).isSome <;>
      simp [check_authentication_status, h1, h]
  · cases h : (store cid).isSome <;>
      simp [check_authentication_status, h1, h]
  · intro store2 heq
    unfold check_authentication_status
    simp only [Option.getD_some, heq]

/-- Witness for C6 at a concrete input. -/
theorem C6_status_is_presence_check_witness :
    (check_authentication_status store0 (some "alice") = "authenticated"
        ↔ (store0 "alice").isSome = true)
  ∧ (check_authentication_status store0 (some "alice") = "not authenticated"
        ↔ (store0 "alice").isSome = false)
  ∧ ∀ store2 : String → Option CredsData,
      (store2 "alice").isSome = (store0 "alice").isSome →
        check_authentication_status store2 (some "alice")
          = check_authentication_status store0 (some "alice") :=
  C6_status_is_presence_check store0 "alice" (by decide)

/-- C7: a callback whose flow token belongs to client `c1` never changes
what `check_authentication_status` answers for a different client `c2` —
whether the callback succeeds or fails. -/
theorem C7_auth_isolated_between_clients (up : Upstream) (st : ServerState)
    (code s c1 c2 : String) (hs : st.oauth_states s = some c1) (hne : c1 ≠ c2) :
    check_authentication_status
        ((oauth2callback up st code s).2).credentials_store (some c2)
      = check_authentication_status st.credentials_store (some c2) := by
  apply check_authentication_status_depends_only_on_entry
  rcases hft : up.fetchToken code with e | creds
  · simp [oauth2callback, hs, hft]
  · rcases hue : up.userinfoEmail with e | email
    · simp [oauth2callback, hs, hft, hue]
    · by_cases h : pyTruthy email = true
      · simp [oauth2callback, hs, hft, hue, h, Ne.symm hne]
      · simp [oauth2callback, hs, hft, hue, h]

/-- Witness for C7 at a concrete input: `clientA` completes authentication,
the answer for `clientB` is unchanged. -/
theorem C7_auth_isolated_between_clients_witness :
    check_authentication_status
        ((oauth2callback upOk st0 "authcode" "state-1").2).credentials_store
        (some "clientB")
      = check_authentication_status st0.credentials_store (some "clientB") :=
  C7_auth_isolated_between_clients upOk st0 "authcode" "state-1" "clientA" "clientB"
    (by decide) (by decide)

/-- C8: when credential resolution yields a service handle and the upstream
listing succeeds with an empty result set, `search_drive_files` returns
exactly the no-files message. -/
theorem C8_empty_listing_message (env : Env) (store : String → Option CredsData)
    (cid q : String) (c : Credentials)
    (hcid : cid ≠ "")
    (hsvc : (get_drive_service env store cid).res = GDSResult.service c)
    (hempty : env.listFiles q = Except.ok []) :
    (search_drive_files env store (some cid) q).1
      = "No files found matching your query." := by
  have h1 : pyTruthy (some cid) = true := by simp [pyTruthy, hcid]
  simp [search_drive_files, h1, hsvc, hempty]

/-- An environment whose credential is not expired and whose listing is
empty for every query. -/
def envFresh : Env :=
  { expired := false, refresh := .fail "refresh never attempted",
    listFiles := fun _ => .ok [] }

/-- The credential handle `get_drive_service` builds from `cd0` when the
credential is not expired. -/
def creds0 : Credentials :=
  { token := cd0.token, refresh_token := cd0.refresh_token,
    token_uri := cd0.token_uri, client_id := cd0.client_id,
    client_secret := cd0.client_secret, scopes := cd0.scopes, expired := false }

/-- Witness for C8 at a concrete input. -/
theorem C8_empty_listing_message_witness :
    (search_drive_files envFresh store0 (some "alice") "name contains report").1
      = "No files found matching your query." :=
  C8_empty_listing_message envFresh store0 "alice" "name contains report" creds0
    (by decide) (by decide) rfl

/-- C9: invoking either exposed tool with no `X-Client-ID` header yields a
textual content block — never a protocol-level fault — and that answer is
the same regardless of server state, environment and arguments, i.e. every
tool treats the missing header the same way. -/
theorem C9_missing_header_textual_and_uniform (t : ToolName) (env env2 : Env)
    (store store2 : String → Option CredsData) (q q2 : String) :
    (invokeTool t env store none q).isText = true
  ∧ invokeTool t env store none q = invokeTool t env2 store2 none q2 := by
  cases t <;>
    simp [invokeTool, search_drive_files, check_authentication_status, pyTruthy,
      ToolOutcome.isText]

/-- `true` iff `session.call_tool` returned normally (did not raise). -/
def toolCallSucceeds : Except String Unit → Bool
  | .ok _ => true
  | .error _ => false

/-- Unfolding of the orchestration loop over a response script: every
response before the last carries a function call and its tool call returns
normally, the last response carries no function call; the loop then returns
the newline-join of the accumulator extended with each visited response's
accumulated text fragments, in turn order. -/
theorem queryRun_script (last : GResponse)
    (hlast : loopCondition last = true ∧ (scanParts (firstParts last)).2 = none) :
    ∀ (mids : List GResponse) (toolResults : List (Except String Unit))
      (acc : List String),
      (∀ r ∈ mids, loopCondition r = true ∧ (scanParts (firstParts r)).2.isSome = true) →
      mids.length ≤ toolResults.length →
      (∀ tr ∈ toolResults, toolCallSucceeds tr = true) →
      queryRun (mids ++ [last]) toolResults acc
        = some (String.intercalate "\n"
            (acc ++ (List.map accTexts (mids ++ [last])).flatten)) := by
  intro mids
  induction mids with
  | nil =>
      intro toolResults acc _ _ _
      obtain ⟨hcond, hnone⟩ := hlast
      rcases hscan : scanParts (firstParts last) with ⟨ts, call⟩
      have hc : call = none := by
        rw [hscan] at hnone
        simpa using hnone
      subst hc
      simp [queryRun, hcond, hscan, accTexts]
  | cons m ms ih =>
      intro toolResults acc hmids hlen hok
      obtain ⟨hcondm, hcallm⟩ := hmids m (by simp)
      rcases hscan : scanParts (firstParts m) with ⟨ts, call⟩
      rw [hscan] at hcallm
      rcases call with _ | c
      · simp at hcallm
      · cases toolResults with
        | nil => simp at hlen
        | cons tr trs =>
            have htr : toolCallSucceeds tr = true := hok tr (by simp)
            rcases tr with e | u
            · simp [toolCallSucceeds] at htr
            · have hstep :
                  queryRun ((m :: ms) ++ [last]) (Except.ok u :: trs) acc
                    = queryRun (ms ++ [last]) trs (acc ++ ts) := by
                simp [queryRun, hcondm, hscan]
              rw [hstep,
                ih trs (acc ++ ts) (fun r hr => hmids r (by simp [hr]))
                  (Nat.le_of_succ_le_succ hlen)
                  (fun tr2 h2 => hok tr2 (by simp [h2]))]
              simp [accTexts, hscan, List.append_assoc]

/-- C2: a terminating run of `GeminiMCPClient.query` whose final model
response carries no function call returns the newline-join, in turn order,
of the text fragments each model response contributed to
`final_text_parts` (for a response with a function call: its truthy text
parts before the first call part; for the final response: its truthy text
parts).  In particular an intermediate call-only response contributes
nothing, so the result then equals the join of the final response's text. -/
theorem C2_query_returns_accumulated_concatenation (mids : List GResponse)
    (last : GResponse) (toolResults : List (Except String Unit))
    (hmids : ∀ r ∈ mids,
      loopCondition r = true ∧ (scanParts (firstParts r)).2.isSome = true)
    (hlast : loopCondition last = true ∧ (scanParts (firstParts last)).2 = none)
    (hlen : mids.length ≤ toolResults.length)
    (hok : ∀ tr ∈ toolResults, toolCallSucceeds tr = true) :
    GeminiMCPClient.query (mids ++ [last]) toolResults
      = some (String.intercalate "\n"
          ((List.map accTexts (mids ++ [last])).flatten)) := by
  have h := queryRun_script last hlast mids toolResults [] hmids hlen hok
  simpa [GeminiMCPClient.query] using h

/-- The function-call part the model emits to invoke the search tool. -/
def fcSearch : FunctionCall :=
  { name := "search_drive_files", args := [("query", "mimeType contains pdf")] }

/-- An intermediate model response holding only a function call, no text. -/
def respCallOnly : GResponse :=
  { candidates := [
      { content :=
          { role := "model",
            parts := [{ text := none, function_call := some fcSearch }] } }] }

/-- A final model response holding only text. -/
def respFinal : GResponse :=
  { candidates := [
      { content :=
          { role := "model",
            parts := [{ text := some "final answer", function_call := none }] } }] }

/-- Witness for C2 at a concrete run: one call-only turn, then a text-only
final turn; the result equals the final response's text. -/
theorem C2_query_returns_accumulated_concatenation_witness :
    GeminiMCPClient.query [respCallOnly, respFinal] [Except.ok ()]
      = some "final answer" :=
  (C2_query_returns_accumulated_concatenation [respCallOnly] respFinal [Except.ok ()]
      (by decide) (by decide) (by decide) (by decide)).trans (by decide)
